import Mathlib

/-!
Verification development for the FastAPI + Celery LLM task-processing service
(`src/app.py`).  The worker task `process_llm_request`, the HTTP handlers
`submit_task` and `get_task_status`, and the Celery result-backend contract
they rely on are shallowly embedded below.  The external collaborators
(the OpenAI call, the Hugging Face pipeline, and the Celery/Redis Job Store)
are modelled as oracles or from the spec's stated contract, as documented on
each definition.
-/

namespace CeleryApp

/-- A Python exception as stored and reported by the service: the exception
class name (`type(e).__name__`) and its message (`str(e)`). -/
structure Exc where
  excType : String
  excMessage : String
deriving DecidableEq, Repr

/-- The Python values that flow through the service as task results, error
payloads and store metadata.  `errorDict e d` stands for a dict
`\x7b"error": e, "details": d\x7d`;  `metaDict t m` stands for the meta dict
`\x7b"exc_type": t, "exc_message": m\x7d` passed to `update_state`;  `pyExc`
is a raw exception instance as returned by `AsyncResult.get(propagate=False)`
for a failed task. -/
inductive PyVal where
  | pyNone : PyVal
  | pyStr : String → PyVal
  | errorDict : String → String → PyVal
  | metaDict : String → String → PyVal
  | pyExc : Exc → PyVal
deriving DecidableEq, Repr

/-- Python `str()` of a `PyVal`, as used by `str(task_result.info)` in
`get_task_status`. -/
def strPy : PyVal → String
  | PyVal.pyNone => "None"
  | PyVal.pyStr s => s
  | PyVal.errorDict e d => "error: " ++ e ++ ", details: " ++ d
  | PyVal.metaDict t m => "exc_type: " ++ t ++ ", exc_message: " ++ m
  | PyVal.pyExc e => e.excMessage

/-- One store-visible event produced by a single execution of the Celery
task body: a `self.update_state(state, meta)` call (meta is the optional
pair `(exc_type, exc_message)`), a normal `return value`, or an uncaught
`raise`. -/
inductive CeleryEvent where
  | updState : String → Option (String × String) → CeleryEvent
  | taskReturn : PyVal → CeleryEvent
  | taskRaise : Exc → CeleryEvent
deriving DecidableEq, Repr

/-- The result-backend record for one task id: the Celery state string that
`AsyncResult.state` reports, and the stored result/meta payload. -/
structure StoreEntry where
  state : String
  result : PyVal
deriving DecidableEq, Repr

/-- Modelled from the spec: the Job Store reports a "not found yet" state for
an id it has no record of, indistinguishable from a queued job; in Celery
terms `AsyncResult.state` is `PENDING` with no result. -/
def pendingEntry : StoreEntry := ⟨"PENDING", PyVal.pyNone⟩

/-- Modelled from the spec: the Job Store's state/result persistence contract
(spec sections 4.2 and 6), which is Celery's result backend.  `update_state`
overwrites the stored state with the given one and stores the meta dict;  a
task that returns normally is recorded as completed successfully with the
returned value as its result ("on backend success, store result, mark
Succeeded");  a task that raises is recorded by the store's failure-tracking
path with the exception as its stored info ("propagate the failure to the
Job Store's own failure-tracking mechanism").  Each event overwrites the
previous record for the job. -/
def applyEvent (_entry : StoreEntry) : CeleryEvent → StoreEntry
  | CeleryEvent.updState s none => ⟨s, PyVal.pyNone⟩
  | CeleryEvent.updState s (some (t, m)) => ⟨s, PyVal.metaDict t m⟩
  | CeleryEvent.taskReturn v => ⟨"SUCCESS", v⟩
  | CeleryEvent.taskRaise e => ⟨"FAILURE", PyVal.pyExc e⟩

/-- Outcome of evaluating the body of the `try` block in
`process_llm_request`: a produced result string, an `openai.APIError`
raised by the OpenAI call, or any other raised exception. -/
inductive BodyResult where
  | ok : String → BodyResult
  | apiError : Exc → BodyResult
  | genExc : Exc → BodyResult
deriving DecidableEq, Repr

/-- Python `s.strip()`: remove whitespace from both ends.  A Python string
is a sequence of code points, modelled as the character list of the Lean
string. -/
def pyStrip (s : String) : String :=
  ⟨((s.data.dropWhile Char.isWhitespace).reverse.dropWhile Char.isWhitespace).reverse⟩

/-- The Hugging Face branch of the task body (src/app.py lines 102-106): run
the pipeline on the prompt, then, if the generated text starts with the
prompt (`result.startswith(prompt)`), drop that leading copy of the prompt
(`result[len(prompt):]`) and strip surrounding whitespace.  The pipeline
itself (an external model) is the oracle `g`. -/
def hfGenerate (g : String → String) (prompt : String) : String :=
  let result := g prompt
  if prompt.data.isPrefixOf result.data then pyStrip ⟨result.data.drop prompt.data.length⟩
  else result

/-- The `try` block of `process_llm_request` (src/app.py lines 77-109).
In OpenAI mode the external call's outcome is the oracle `openaiCall`.
In Hugging Face mode, a missing pipeline raises
`RuntimeError("Hugging Face model could not be loaded.")`; otherwise the
pipeline output is post-processed by `hfGenerate`. -/
def tryBody (useOpenai : Bool) (openaiCall : BodyResult)
    (hfPipeline : Option (String → String)) (prompt : String) : BodyResult :=
  if useOpenai then openaiCall
  else
    match hfPipeline with
    | none => BodyResult.genExc ⟨"RuntimeError", "Hugging Face model could not be loaded."⟩
    | some g => BodyResult.ok (hfGenerate g prompt)

/-- The Celery task `process_llm_request` (src/app.py lines 73-121) as the
sequence of store-visible events of one execution.  Because the app sets
`task_track_started=True`, the store marks the task `STARTED` on pickup;
the body then immediately sets the custom state `IN_PROGRESS`, runs the
`try` block, and: on success returns the result string; on `openai.APIError`
sets state `FAILED` with the exception meta and returns the dict
`\x7b"error": "OpenAI API Error", "details": str(e)\x7d`; on any other
exception sets state `FAILED` with the exception meta and re-raises. -/
def process_llm_request (useOpenai : Bool) (openaiCall : BodyResult)
    (hfPipeline : Option (String → String)) (prompt : String) : List CeleryEvent :=
  CeleryEvent.updState "STARTED" none ::
  CeleryEvent.updState "IN_PROGRESS" none ::
  match tryBody useOpenai openaiCall hfPipeline prompt with
  | BodyResult.ok r => [CeleryEvent.taskReturn (PyVal.pyStr r)]
  | BodyResult.apiError e =>
      [CeleryEvent.updState "FAILED" (some (e.excType, e.excMessage)),
       CeleryEvent.taskReturn (PyVal.errorDict "OpenAI API Error" e.excMessage)]
  | BodyResult.genExc e =>
      [CeleryEvent.updState "FAILED" (some (e.excType, e.excMessage)),
       CeleryEvent.taskRaise e]

/-- All store records a poller can observe over one execution of the task:
the initial pending record followed by the record after each event. -/
def snapshots (trace : List CeleryEvent) : List StoreEntry :=
  List.scanl applyEvent pendingEntry trace

/-- The store record after the execution has finished. -/
def finalEntry (trace : List CeleryEvent) : StoreEntry :=
  List.foldl applyEvent pendingEntry trace

/-- The JSON body returned by `GET /status/\x7btask_id\x7d`. -/
structure StatusResponse where
  task_id : String
  status : String
  result : PyVal
deriving DecidableEq, Repr

/-- The handler `get_task_status` (src/app.py lines 134-169), applied to the
store record `AsyncResult(task_id)` observes.  `PENDING` maps to `ACCEPTED`,
`STARTED` to `IN_PROGRESS`, `SUCCESS` to `FINISHED` with the stored result,
`FAILURE` to `FAILED` with the stored info massaged into an error dict when
it is an exception or `None`, `RETRY` to `RETRYING`, and any other state is
passed through verbatim with a null result. -/
def get_task_status (task_id : String) (entry : StoreEntry) : StatusResponse :=
  if entry.state = "PENDING" then ⟨task_id, "ACCEPTED", PyVal.pyNone⟩
  else if entry.state = "STARTED" then ⟨task_id, "IN_PROGRESS", PyVal.pyNone⟩
  else if entry.state = "SUCCESS" then ⟨task_id, "FINISHED", entry.result⟩
  else if entry.state = "FAILURE" then
    match entry.result with
    | PyVal.pyExc e => ⟨task_id, "FAILED", PyVal.errorDict e.excType e.excMessage⟩
    | PyVal.pyNone => ⟨task_id, "FAILED", PyVal.errorDict "Task Failed" (strPy PyVal.pyNone)⟩
    | v => ⟨task_id, "FAILED", v⟩
  else if entry.state = "RETRY" then ⟨task_id, "RETRYING", PyVal.pyNone⟩
  else ⟨task_id, entry.state, PyVal.pyNone⟩

/-- The system state shared between the API and the workers: the broker
queue of submitted-but-undelivered jobs (id and prompt) and the result
backend's records. -/
structure SystemState where
  queue : List (String × String)
  backend : List (String × StoreEntry)
deriving Repr

/-- The HTTP outcome of `POST /process`: either an `HTTPException` with a
status code and detail, or an accepted response with its status code, the
new task id and the status field of the JSON body. -/
inductive SubmitResult where
  | rejected : Nat → String → SubmitResult
  | accepted : Nat → String → String → SubmitResult
deriving DecidableEq, Repr

/-- The status code declared on the `POST /process` route decorator
(src/app.py line 125, `status_code=status.HTTP_202_ACCEPTED`).  It would be
served only if the handler returned plain content. -/
def submit_route_status_code : Nat := 202

/-- The handler `submit_task` (src/app.py lines 125-132).  Python's
`not payload.task` is true exactly for the empty string, so an empty task
raises `HTTPException(400)` and changes nothing; otherwise the job is
enqueued under a fresh id and the handler returns a `JSONResponse` with body
`\x7b"task_id": id, "status": "ACCEPTED"\x7d`, without running the job.
FastAPI serves a directly-returned `Response` as-is, ignoring the route
decorator's declared status code, and `JSONResponse`'s default status code
is `200`, so the served HTTP status of a successful submission is `200`. -/
def submit_task (st : SystemState) (freshId : String) (task : String) :
    SubmitResult × SystemState :=
  if task = "" then
    (SubmitResult.rejected 400 "Task prompt cannot be empty.", st)
  else
    (SubmitResult.accepted 200 freshId "ACCEPTED",
     { st with queue := st.queue ++ [(freshId, task)] })

/-- Reading the store record for a task id, as `AsyncResult(task_id)` does:
an id the backend has no record for yields the pending record. -/
def storeLookup (st : SystemState) (task_id : String) : StoreEntry :=
  ((st.backend.find? (fun p => p.1 == task_id)).map Prod.snd).getD pendingEntry

/-- Whether `sub` occurs in `s` as a contiguous substring. -/
def containsSubstr (s sub : String) : Bool :=
  decide (sub.data <:+: s.data)

/-- A concrete worker execution in OpenAI mode whose backend call raises
`openai.APIError("boom")`. -/
def apiErrRun : List CeleryEvent :=
  process_llm_request true (BodyResult.apiError ⟨"APIError", "boom"⟩) none "hello"

/-- A concrete worker execution in fallback mode on the prompt "hello",
with a pipeline that generates the text "hello there" (prompt followed by a
continuation, the usual shape of text-generation output). -/
def hfDemoRun : List CeleryEvent :=
  process_llm_request false (BodyResult.ok "") (some (fun p => p ++ " there")) "hello"

/-- C1: on a provider API error the worker does write a `FAILED` state with
the structured exception meta and does not raise further, but it then
returns the error dict normally; the store records a normal return as
completed-successfully, so the job's final store state is `SUCCESS` and a
subsequent status poll reports `FINISHED` (with the error dict as its
result), not `FAILED` as the claim requires. -/
theorem claim_C1_provider_error_poll_reports_finished :
    CeleryEvent.updState "FAILED" (some ("APIError", "boom")) ∈ apiErrRun ∧
    apiErrRun.getLast? =
      some (CeleryEvent.taskReturn (PyVal.errorDict "OpenAI API Error" "boom")) ∧
    finalEntry apiErrRun = ⟨"SUCCESS", PyVal.errorDict "OpenAI API Error" "boom"⟩ ∧
    get_task_status "t" (finalEntry apiErrRun) =
      ⟨"t", "FINISHED", PyVal.errorDict "OpenAI API Error" "boom"⟩ ∧
    (get_task_status "t" (finalEntry apiErrRun)).status ≠ "FAILED" := by
  refine ⟨by decide, rfl, rfl, rfl, by decide⟩

/-- C2: terminal statuses are not stable under the code.  In the provider
API error run, a poll issued after the worker's `update_state("FAILED", ...)`
call observes status `FAILED` (the custom state is passed through verbatim),
and a later poll of the same job, after the task body's normal return has
been recorded, observes status `FINISHED` — a job moves from one observed
terminal status to a different one. -/
theorem claim_C2_terminal_status_not_idempotent :
    (get_task_status "t" ((snapshots apiErrRun).getD 3 pendingEntry)).status = "FAILED" ∧
    (get_task_status "t" ((snapshots apiErrRun).getD 4 pendingEntry)).status = "FINISHED" :=
  ⟨rfl, rfl⟩

/-- C3 counterexample: a fallback-variant job on prompt "hello" whose
pipeline generates "hello there" finishes with stored result "there" — the
code strips the leading prompt from the generated text, so the stored
result does not contain the original prompt verbatim, contrary to the
claim. -/
theorem claim_C3_result_lacks_prompt :
    finalEntry hfDemoRun = ⟨"SUCCESS", PyVal.pyStr "there"⟩ ∧
    (get_task_status "t" (finalEntry hfDemoRun)).status = "FINISHED" ∧
    containsSubstr "there" "hello" = false := by
  refine ⟨rfl, rfl, by decide⟩

/-- C3 amended: a fallback-variant job whose pipeline is loaded always
finishes as `FINISHED`, with the stored result being the pipeline's
generated text, with the leading copy of the prompt dropped and whitespace
trimmed whenever the generated text starts with the prompt; if the pipeline
failed to load, the job instead ends in the store's failure state with a
`RuntimeError`.  No delay is modelled: the code contains no simulated
latency. -/
theorem claim_C3_fallback_behaviour (oc : BodyResult) (g : String → String)
    (prompt : String) :
    finalEntry (process_llm_request false oc (some g) prompt) =
      ⟨"SUCCESS", PyVal.pyStr (hfGenerate g prompt)⟩ ∧
    (get_task_status "t" (finalEntry (process_llm_request false oc (some g) prompt))).status =
      "FINISHED" ∧
    finalEntry (process_llm_request false oc none prompt) =
      ⟨"FAILURE", PyVal.pyExc ⟨"RuntimeError", "Hugging Face model could not be loaded."⟩⟩ :=
  ⟨rfl, rfl, rfl⟩

/-- C4: submitting the non-empty task "hello" does return immediately with
a body carrying the fresh task id and status `ACCEPTED`, appends the job to
the queue and leaves the result backend untouched — but the served HTTP
status code is `JSONResponse`'s default `200`, not the `202` declared on
the route decorator, because the handler returns the `JSONResponse`
directly: the claim's `202 Accepted` conjunct fails on the program. -/
theorem claim_C4_submit_served_status_is_200 :
    (submit_task ⟨[], []⟩ "id1" "hello").1 = SubmitResult.accepted 200 "id1" "ACCEPTED" ∧
    (submit_task ⟨[], []⟩ "id1" "hello").2.queue = [("id1", "hello")] ∧
    (submit_task ⟨[], []⟩ "id1" "hello").2.backend = [] ∧
    (200 : Nat) ≠ submit_route_status_code := by
  refine ⟨rfl, rfl, rfl, by decide⟩

/-- C5: the status endpoint's mapping from the store-observed state to the
external status is exactly the fixed table — `PENDING` (not yet picked up)
to `ACCEPTED`, `STARTED` (running) to `IN_PROGRESS`, `SUCCESS` to
`FINISHED`, `FAILURE` to `FAILED`, `RETRY` to `RETRYING`, and any other
store state is passed through verbatim (with a null result). -/
theorem claim_C5_status_mapping (id : String) (r : PyVal) :
    (get_task_status id ⟨"PENDING", r⟩).status = "ACCEPTED" ∧
    (get_task_status id ⟨"STARTED", r⟩).status = "IN_PROGRESS" ∧
    (get_task_status id ⟨"SUCCESS", r⟩).status = "FINISHED" ∧
    (get_task_status id ⟨"FAILURE", r⟩).status = "FAILED" ∧
    (get_task_status id ⟨"RETRY", r⟩).status = "RETRYING" ∧
    ∀ s : String, s ∉ ["PENDING", "STARTED", "SUCCESS", "FAILURE", "RETRY"] →
      get_task_status id ⟨s, r⟩ = ⟨id, s, PyVal.pyNone⟩ := by
  refine ⟨rfl, rfl, rfl, ?_, rfl, ?_⟩
  · cases r <;> rfl
  · intro s hs
    simp only [List.mem_cons, List.mem_singleton, not_or] at hs
    obtain ⟨h1, h2, h3, h4, h5, -⟩ := hs
    simp [get_task_status, h1, h2, h3, h4, h5]

/-- Witness for C5's passthrough clause at the store state `REVOKED`. -/
theorem claim_C5_status_mapping_witness :
    get_task_status "t" ⟨"REVOKED", PyVal.pyNone⟩ = ⟨"t", "REVOKED", PyVal.pyNone⟩ :=
  (claim_C5_status_mapping "t" PyVal.pyNone).2.2.2.2.2 "REVOKED" (by decide)

/-- C6: submitting an empty task is rejected synchronously with `400` and
the detail message, and the system state — queue and backend alike — is
returned unchanged: no job is created and nothing is enqueued. -/
theorem claim_C6_empty_rejected (st : SystemState) (freshId : String) :
    submit_task st freshId "" =
      (SubmitResult.rejected 400 "Task prompt cannot be empty.", st) :=
  rfl

/-- C7: when the task body raises any exception other than a provider API
error, the worker first writes state `FAILED` with the structured exception
meta (the job-visible channel) and then re-raises, so the store's own
failure tracking records the exception (the infra-visible channel): the
final store state is `FAILURE` and a poll reports `FAILED`. -/
theorem claim_C7_internal_error_dual_report (useOpenai : Bool) (oc : BodyResult)
    (hf : Option (String → String)) (prompt : String) (e : Exc)
    (h : tryBody useOpenai oc hf prompt = BodyResult.genExc e) :
    process_llm_request useOpenai oc hf prompt =
      [CeleryEvent.updState "STARTED" none,
       CeleryEvent.updState "IN_PROGRESS" none,
       CeleryEvent.updState "FAILED" (some (e.excType, e.excMessage)),
       CeleryEvent.taskRaise e] ∧
    finalEntry (process_llm_request useOpenai oc hf prompt) =
      ⟨"FAILURE", PyVal.pyExc e⟩ ∧
    (get_task_status "t" (finalEntry (process_llm_request useOpenai oc hf prompt))).status =
      "FAILED" := by
  refine ⟨by simp [process_llm_request, h], ?_, ?_⟩ <;>
    simp [process_llm_request, h, finalEntry, applyEvent, get_task_status]

/-- Witness for C7: a `RuntimeError("kaput")` raised in OpenAI mode. -/
theorem claim_C7_internal_error_dual_report_witness :
    (get_task_status "t"
      (finalEntry (process_llm_request true
        (BodyResult.genExc ⟨"RuntimeError", "kaput"⟩) none "hi"))).status = "FAILED" :=
  (claim_C7_internal_error_dual_report true (BodyResult.genExc ⟨"RuntimeError", "kaput"⟩)
    none "hi" ⟨"RuntimeError", "kaput"⟩ rfl).2.2

/-- C8: for a task id the result backend has no record of, the status
endpoint reads the pending record and reports `ACCEPTED` with a null
result — indistinguishable from a submitted job not yet picked up. -/
theorem claim_C8_unknown_id_accepted (st : SystemState) (task_id : String)
    (h : ∀ p ∈ st.backend, p.1 ≠ task_id) :
    storeLookup st task_id = pendingEntry ∧
    get_task_status task_id (storeLookup st task_id) =
      ⟨task_id, "ACCEPTED", PyVal.pyNone⟩ := by
  have hfind : st.backend.find? (fun p => p.1 == task_id) = none := by
    rw [List.find?_eq_none]
    intro p hp
    simpa using h p hp
  refine ⟨by simp [storeLookup, hfind], ?_⟩
  simp [storeLookup, hfind, get_task_status, pendingEntry]

/-- Witness for C8 on an empty system state and the id "x". -/
theorem claim_C8_unknown_id_accepted_witness :
    get_task_status "x" (storeLookup ⟨[], []⟩ "x") = ⟨"x", "ACCEPTED", PyVal.pyNone⟩ :=
  (claim_C8_unknown_id_accepted ⟨[], []⟩ "x" (by simp)).2

/-- C9: in every worker execution, the first two store-visible events are
the `STARTED` mark and the worker's own `IN_PROGRESS` update — both before
any outcome of the backend call — and every observable store snapshot in
the completed-successfully state is preceded by a snapshot in the
`IN_PROGRESS` state. -/
theorem claim_C9_in_progress_before_success (useOpenai : Bool) (oc : BodyResult)
    (hf : Option (String → String)) (prompt : String) :
    (process_llm_request useOpenai oc hf prompt).take 2 =
      [CeleryEvent.updState "STARTED" none, CeleryEvent.updState "IN_PROGRESS" none] ∧
    ∀ i : Nat,
      ((snapshots (process_llm_request useOpenai oc hf prompt)).getD i pendingEntry).state =
        "SUCCESS" →
      ∃ j : Nat, j < i ∧
        ((snapshots (process_llm_request useOpenai oc hf prompt)).getD j pendingEntry).state =
          "IN_PROGRESS" := by
  cases h : tryBody useOpenai oc hf prompt with
  | ok r =>
    refine ⟨by simp [process_llm_request, h], ?_⟩
    intro i hi
    simp only [process_llm_request, h, snapshots, List.scanl, applyEvent, pendingEntry] at hi ⊢
    match i, hi with
    | 0, hi => exact absurd hi (by simp [pendingEntry])
    | 1, hi => exact absurd hi (by simp)
    | 2, hi => exact absurd hi (by simp)
    | 3, _ => exact ⟨2, by omega, rfl⟩
    | (n + 4), hi => exact absurd hi (by simp [List.getD, pendingEntry])
  | apiError e =>
    refine ⟨by simp [process_llm_request, h], ?_⟩
    intro i hi
    simp only [process_llm_request, h, snapshots, List.scanl, applyEvent, pendingEntry] at hi ⊢
    match i, hi with
    | 0, hi => exact absurd hi (by simp [pendingEntry])
    | 1, hi => exact absurd hi (by simp)
    | 2, hi => exact absurd hi (by simp)
    | 3, hi => exact absurd hi (by simp)
    | 4, _ => exact ⟨2, by omega, rfl⟩
    | (n + 5), hi => exact absurd hi (by simp [List.getD, pendingEntry])
  | genExc e =>
    refine ⟨by simp [process_llm_request, h], ?_⟩
    intro i hi
    simp only [process_llm_request, h, snapshots, List.scanl, applyEvent, pendingEntry] at hi ⊢
    match i, hi with
    | 0, hi => exact absurd hi (by simp [pendingEntry])
    | 1, hi => exact absurd hi (by simp)
    | 2, hi => exact absurd hi (by simp)
    | 3, hi => exact absurd hi (by simp)
    | 4, hi => exact absurd hi (by simp)
    | (n + 5), hi => exact absurd hi (by simp [List.getD, pendingEntry])

/-- Witness for C9: the successful run reaches `SUCCESS` at snapshot index
3, and the theorem yields an earlier `IN_PROGRESS` snapshot. -/
theorem claim_C9_in_progress_before_success_witness :
    ∃ j : Nat, j < 3 ∧
      ((snapshots (process_llm_request true (BodyResult.ok "hi") none "p")).getD j
        pendingEntry).state = "IN_PROGRESS" :=
  (claim_C9_in_progress_before_success true (BodyResult.ok "hi") none "p").2 3 rfl

/-- C10: the submission check rejects exactly the empty string — the
response is the `400` rejection precisely when the task is `""` — and in
particular any non-empty all-whitespace task is accepted (served status
`200`, the handler's `JSONResponse` default) with a fresh task id and a job
appended to the queue, rather than rejected with `400`. -/
theorem claim_C10_whitespace_only_accepted (st : SystemState) (freshId task : String) :
    ((submit_task st freshId task).1 =
      SubmitResult.rejected 400 "Task prompt cannot be empty." ↔ task = "") ∧
    (task ≠ "" → (∀ c ∈ task.data, c.isWhitespace = true) →
      (submit_task st freshId task).1 = SubmitResult.accepted 200 freshId "ACCEPTED" ∧
      (submit_task st freshId task).2.queue = st.queue ++ [(freshId, task)]) := by
  constructor
  · constructor
    · intro h
      by_contra hne
      simp [submit_task, hne] at h
    · intro h
      simp [submit_task, h]
  · intro h _
    simp [submit_task, h]

/-- Witness for C10 at the single-space prompt. -/
theorem claim_C10_whitespace_only_accepted_witness :
    (submit_task ⟨[], []⟩ "id1" " ").1 = SubmitResult.accepted 200 "id1" "ACCEPTED" :=
  ((claim_C10_whitespace_only_accepted ⟨[], []⟩ "id1" " ").2 (by decide) (by decide)).1

end CeleryApp
